import Mathlib

/-!
Verification of the keyboard HID device implementation (`src/keyboard.rs`).

The file shallowly embeds the keyboard-specific logic of the crate: the
`KeyboardReport` data model and its HID report descriptor (transcribed from
the `gen_hid_descriptor` invocation), the `push_keyboard_report` result
handling, the `control_out` LED-decoding path (modelled as a trace of
interactions with the wrapped HID class and the `Leds` capability), the
constructor `HidKeyboard::new`, and the pure delegation surface of the
`UsbClass` implementation. The external `usb_device` and `usbd_hid` crates
are abstracted: their outcomes (bytes written, pulled raw report, errors)
appear as explicit inputs, and their data types (`UsbError`, `ReportType`,
`ReportInfo`, the HID class settings) are transcribed from their public API.
-/

/-- Error type of the external `usb_device` crate (`usb_device::UsbError`),
transcribed variant-for-variant from its public API. -/
inductive UsbError
  | WouldBlock
  | ParseError
  | BufferOverflow
  | EndpointOverflow
  | EndpointMemoryOverflow
  | InvalidEndpoint
  | Unsupported
  | InvalidState
deriving DecidableEq, Repr

/-- Report type of a pulled raw report (`usbd_hid::hid_class::ReportType`). -/
inductive ReportType
  | Input
  | Output
  | Feature
  | Reserved (n : Nat)
deriving DecidableEq, Repr

/-- Metadata of a pulled raw report (`usbd_hid::hid_class::ReportInfo`):
declared type, report ID and length. `u8`/`usize` are modelled as `Nat`. -/
structure ReportInfo where
  report_type : ReportType
  report_id : Nat
  len : Nat
deriving DecidableEq, Repr

/-- Events observable at the boundary between `HidKeyboard` and its two
collaborators: the wrapped generic HID class and the `Leds` capability.
`hidControlOut` is the delegation `self.hid.control_out(xfer)`;
`hidPushInput` is the submission `self.hid.push_input(report)`; the five
`led*` events are the calls on the `Leds` capability with their boolean
argument. -/
inductive KbdEvent
  | hidControlOut
  | hidPushInput
  | ledNumLock (status : Bool)
  | ledCapsLock (status : Bool)
  | ledScrollLock (status : Bool)
  | ledCompose (status : Bool)
  | ledKana (status : Bool)
deriving DecidableEq, Repr

/-- Whether an event is a call on the `Leds` capability. -/
def isLedEvent : KbdEvent → Bool
  | KbdEvent.ledNumLock _ => true
  | KbdEvent.ledCapsLock _ => true
  | KbdEvent.ledScrollLock _ => true
  | KbdEvent.ledCompose _ => true
  | KbdEvent.ledKana _ => true
  | _ => false

/-- The bit test `(leds & (1 << i)) != 0` from `control_out`
(src/keyboard.rs line 113). -/
def ledBit (leds i : Nat) : Bool := (leds &&& (1 <<< i)) != 0

/-- `HidKeyboard::control_out` (src/keyboard.rs lines 107-121), as the trace
of events it emits. The outcome of `self.hid.pull_raw_report` on the one-byte
buffer — performed after the delegation to `self.hid.control_out` — is the
abstract input `pull`: either an error, or the report metadata together with
the byte placed in the buffer. The Rust function returns `()`: it signals no
error in any path; the trace is its entire observable behaviour. -/
def control_out (pull : Except UsbError (ReportInfo × Nat)) : List KbdEvent :=
  KbdEvent.hidControlOut ::
    (match pull with
     | Except.error _ => []
     | Except.ok (info, leds) =>
       if info.report_type = ReportType.Output ∧ info.report_id = 0 ∧ info.len = 1 then
         [KbdEvent.ledNumLock (ledBit leds 0),
          KbdEvent.ledCapsLock (ledBit leds 1),
          KbdEvent.ledScrollLock (ledBit leds 2),
          KbdEvent.ledCompose (ledBit leds 3),
          KbdEvent.ledKana (ledBit leds 4)]
       else [])

/-- `KEYBOARD_REPORT_IN_SIZE` (src/keyboard.rs line 59): all fields of the
report besides `leds`. -/
def KEYBOARD_REPORT_IN_SIZE : Nat := 1 + 1 + 6

/-- `HidKeyboard::push_keyboard_report` (src/keyboard.rs lines 85-96),
together with the trace of events it emits. The outcome of
`self.hid.push_input(report)` is the abstract input `res` (bytes written on
success). The submission happens exactly once, before the byte-count check;
its result is then inspected: a count different from
`KEYBOARD_REPORT_IN_SIZE` becomes `UsbError::BufferOverflow`, a matching
count becomes success, and an error is returned as-is. -/
def push_keyboard_report_full (res : Except UsbError Nat) :
    List KbdEvent × Except UsbError Unit :=
  (pushEvents res,
   match res with
   | Except.error e => Except.error e
   | Except.ok bytes_written =>
     if bytes_written ≠ KEYBOARD_REPORT_IN_SIZE then
       Except.error UsbError.BufferOverflow
     else
       Except.ok ())
where
  /-- The interaction trace: one unconditional `push_input` submission and
  nothing else (in particular no `Leds` call). -/
  pushEvents (_ : Except UsbError Nat) : List KbdEvent := [KbdEvent.hidPushInput]

/-- The `Result` value returned by `push_keyboard_report`. -/
def push_keyboard_report (res : Except UsbError Nat) : Except UsbError Unit :=
  (push_keyboard_report_full res).2

/-- The `KeyboardReport` struct (src/keyboard.rs lines 47-57). `u8` fields
are modelled as `Nat`; the `[u8; 6]` array as a `List Nat` (length 6 for
well-formed values). -/
structure KeyboardReport where
  modifier : Nat
  reserved : Nat
  leds : Nat
  keycodes : List Nat
deriving DecidableEq, Repr

/-- Modelled from the spec: the input-direction serialization of a
`KeyboardReport`, performed by the `Serialize` implementation that the
external `usbd_hid::gen_hid_descriptor` macro generates (that generated code
is not under the sources). Per the spec, the bytes pushed to the host are the
fields declared `input` in the descriptor invocation (src/keyboard.rs lines
28-46) in declaration order — `modifier`, `reserved`, then the six
`keycodes` — while the `output`-declared `leds` field is never serialized. -/
def KeyboardReport.inputBytes (r : KeyboardReport) : List Nat :=
  r.modifier :: r.reserved :: r.keycodes

/-- Direction of a HID report field, as declared in the descriptor macro. -/
inductive HidDirection
  | input
  | output
deriving DecidableEq, Repr

/-- Data/constant flag of a HID main item (`item_settings`). -/
inductive HidFieldData
  | data
  | const
deriving DecidableEq, Repr

/-- Variable/array flag of a HID main item (`item_settings`). -/
inductive HidFieldMode
  | variableMode
  | arrayMode
deriving DecidableEq, Repr

/-- Absolute/relative flag of a HID main item (`item_settings`). -/
inductive HidFieldRel
  | absolute
  | relative
deriving DecidableEq, Repr

/-- One report field of the HID report descriptor, as declared in the
`gen_hid_descriptor` invocation: usage page (when declared), usage range,
direction, main-item settings, and the report size/count in bits that the
field's type and `packed_bits` attribute determine. -/
structure HidReportField where
  usage_page : Option Nat
  usage_min : Nat
  usage_max : Nat
  direction : HidDirection
  dataKind : HidFieldData
  modeKind : HidFieldMode
  relKind : HidFieldRel
  report_size : Nat
  report_count : Nat
deriving DecidableEq, Repr

instance : Inhabited HidReportField :=
  ⟨⟨none, 0, 0, HidDirection.input, HidFieldData.data, HidFieldMode.variableMode,
    HidFieldRel.absolute, 0, 0⟩⟩

/-- A HID collection of the report descriptor: collection kind, its usage
page and usage, and the report fields it contains, in order. -/
structure HidCollectionDesc where
  collectionKind : Nat
  usage_page : Nat
  usage : Nat
  fields : List HidReportField
deriving DecidableEq, Repr

instance : Inhabited HidCollectionDesc := ⟨⟨0, 0, 0, []⟩⟩

/-- HID usage-page and usage constants used by the descriptor. -/
def GENERIC_DESKTOP : Nat := 0x01
def KEYBOARD_PAGE : Nat := 0x07
def LEDS_PAGE : Nat := 0x08
def KEYBOARD_USAGE : Nat := 0x06
def APPLICATION : Nat := 0x01

/-- The HID report descriptor of `KeyboardReport`, transcribed from the
`gen_hid_descriptor` invocation (src/keyboard.rs lines 28-46): one
application collection (Generic Desktop / Keyboard) holding, in order, the
modifier input field (`packed_bits 8`: size 1, count 8, usages 0xE0-0xE7 on
the Keyboard page), the reserved constant input byte, the LED output field
(`packed_bits 5`: size 1, count 5, usages 0x01-0x05 on the LED page), and
the six-element keycode input array (size 8, count 6, usages 0x00-0xFF on
the Keyboard page). -/
def keyboardReportDesc : List HidCollectionDesc :=
  [{ collectionKind := APPLICATION,
     usage_page := GENERIC_DESKTOP,
     usage := KEYBOARD_USAGE,
     fields :=
       [{ usage_page := some KEYBOARD_PAGE, usage_min := 0xe0, usage_max := 0xe7,
          direction := HidDirection.input, dataKind := HidFieldData.data,
          modeKind := HidFieldMode.variableMode, relKind := HidFieldRel.absolute,
          report_size := 1, report_count := 8 },
        { usage_page := none, usage_min := 0x00, usage_max := 0xff,
          direction := HidDirection.input, dataKind := HidFieldData.const,
          modeKind := HidFieldMode.variableMode, relKind := HidFieldRel.absolute,
          report_size := 8, report_count := 1 },
        { usage_page := some LEDS_PAGE, usage_min := 0x01, usage_max := 0x05,
          direction := HidDirection.output, dataKind := HidFieldData.data,
          modeKind := HidFieldMode.variableMode, relKind := HidFieldRel.absolute,
          report_size := 1, report_count := 5 },
        { usage_page := some KEYBOARD_PAGE, usage_min := 0x00, usage_max := 0xff,
          direction := HidDirection.input, dataKind := HidFieldData.data,
          modeKind := HidFieldMode.arrayMode, relKind := HidFieldRel.absolute,
          report_size := 8, report_count := 6 }] }]

/-- `usbd_hid::hid_class::HidSubClass`. -/
inductive HidSubClass
  | NoSubClass
  | Boot
deriving DecidableEq, Repr

/-- `usbd_hid::hid_class::HidProtocol`. -/
inductive HidProtocol
  | Generic
  | Keyboard
  | Mouse
deriving DecidableEq, Repr

/-- `usbd_hid::hid_class::ProtocolModeConfig`. -/
inductive ProtocolModeConfig
  | DefaultBehavior
  | ForceBoot
  | ForceReport
deriving DecidableEq, Repr

/-- `usbd_hid::hid_class::HidCountryCode` (the variant this crate uses,
plus a representative other one). -/
inductive HidCountryCode
  | NotSupported
  | Arabic
deriving DecidableEq, Repr

/-- `usbd_hid::hid_class::HidClassSettings` (src/keyboard.rs lines 71-76
builds one). -/
structure HidClassSettings where
  subclass : HidSubClass
  protocol : HidProtocol
  config : ProtocolModeConfig
  locale : HidCountryCode
deriving DecidableEq, Repr

/-- The external `HIDClass` as configured at construction: the constructor
`HIDClass::new_ep_in_with_settings(bus, descriptor, poll_interval, settings)`
records its arguments. -/
structure HIDClass (Bus : Type) where
  bus : Bus
  report_descriptor : List HidCollectionDesc
  poll_interval : Nat
  settings : HidClassSettings

/-- `HIDClass::new_ep_in_with_settings` of the external `usbd_hid` crate,
abstracted as recording its configuration arguments. -/
def HIDClass.new_ep_in_with_settings (bus : Bus)
    (descriptor : List HidCollectionDesc) (poll_interval : Nat)
    (settings : HidClassSettings) : HIDClass Bus :=
  { bus := bus, report_descriptor := descriptor, poll_interval := poll_interval,
    settings := settings }

/-- The `HidKeyboard` struct (src/keyboard.rs lines 62-65): the wrapped HID
class instance and the caller-supplied `Leds` capability. `H` abstracts over
the HID class state, `L` over the `Leds` implementor. -/
structure HidKeyboard (H L : Type) where
  hid : H
  leds : L

/-- `HidKeyboard::new` (src/keyboard.rs lines 69-82): builds the settings
struct, constructs the wrapped HID class from the bus, the `KeyboardReport`
descriptor, poll interval 10 and those settings, and stores the
caller-supplied `leds` value. Total: no error path. -/
def HidKeyboard.new (bus : Bus) (leds : L) : HidKeyboard (HIDClass Bus) L :=
  let settings : HidClassSettings :=
    { subclass := HidSubClass.Boot,
      protocol := HidProtocol.Keyboard,
      config := ProtocolModeConfig.ForceBoot,
      locale := HidCountryCode.NotSupported }
  { hid := HIDClass.new_ep_in_with_settings bus keyboardReportDesc 10 settings,
    leds := leds }

/-- `HidKeyboard::leds_mut` (src/keyboard.rs lines 99-101). -/
def HidKeyboard.leds_mut (k : HidKeyboard H L) : L := k.leds

/-- The `UsbClass` capability set of the wrapped generic HID class, minus
`control_out` (modelled separately): each operation as a function over the
abstract HID-class state `H`. Writer-mutating operations return the updated
writer (`W` configuration-descriptor writer, `BW` BOS writer); `&mut self`
operations return the updated state; `CI` is the control-in transfer type
and endpoint addresses are `Nat`. -/
structure UsbClassOps (H W BW CI : Type) where
  get_configuration_descriptors : H → W → Except UsbError Unit × W
  get_bos_descriptors : H → BW → Except UsbError Unit × BW
  get_string : H → Nat → Nat → Option String
  reset : H → H
  poll : H → H
  control_in : H → CI → H
  endpoint_setup : H → Nat → H
  endpoint_out : H → Nat → H
  endpoint_in_complete : H → Nat → H

/-- `UsbClass::get_configuration_descriptors` for `HidKeyboard`
(src/keyboard.rs lines 125-127). -/
def HidKeyboard.get_configuration_descriptors (ops : UsbClassOps H W BW CI)
    (k : HidKeyboard H L) (writer : W) : Except UsbError Unit × W :=
  ops.get_configuration_descriptors k.hid writer

/-- `UsbClass::get_bos_descriptors` for `HidKeyboard` (lines 129-131). -/
def HidKeyboard.get_bos_descriptors (ops : UsbClassOps H W BW CI)
    (k : HidKeyboard H L) (writer : BW) : Except UsbError Unit × BW :=
  ops.get_bos_descriptors k.hid writer

/-- `UsbClass::get_string` for `HidKeyboard` (lines 133-135). -/
def HidKeyboard.get_string (ops : UsbClassOps H W BW CI)
    (k : HidKeyboard H L) (index : Nat) (lang_id : Nat) : Option String :=
  ops.get_string k.hid index lang_id

/-- `UsbClass::reset` for `HidKeyboard` (lines 137-139). -/
def HidKeyboard.reset (ops : UsbClassOps H W BW CI)
    (k : HidKeyboard H L) : HidKeyboard H L :=
  { k with hid := ops.reset k.hid }

/-- `UsbClass::poll` for `HidKeyboard` (lines 141-143). -/
def HidKeyboard.poll (ops : UsbClassOps H W BW CI)
    (k : HidKeyboard H L) : HidKeyboard H L :=
  { k with hid := ops.poll k.hid }

/-- `UsbClass::control_in` for `HidKeyboard` (lines 145-147). -/
def HidKeyboard.control_in (ops : UsbClassOps H W BW CI)
    (k : HidKeyboard H L) (xfer : CI) : HidKeyboard H L :=
  { k with hid := ops.control_in k.hid xfer }

/-- `UsbClass::endpoint_setup` for `HidKeyboard` (lines 149-151). -/
def HidKeyboard.endpoint_setup (ops : UsbClassOps H W BW CI)
    (k : HidKeyboard H L) (addr : Nat) : HidKeyboard H L :=
  { k with hid := ops.endpoint_setup k.hid addr }

/-- `UsbClass::endpoint_out` for `HidKeyboard` (lines 153-155). -/
def HidKeyboard.endpoint_out (ops : UsbClassOps H W BW CI)
    (k : HidKeyboard H L) (addr : Nat) : HidKeyboard H L :=
  { k with hid := ops.endpoint_out k.hid addr }

/-- `UsbClass::endpoint_in_complete` for `HidKeyboard` (lines 157-159). -/
def HidKeyboard.endpoint_in_complete (ops : UsbClassOps H W BW CI)
    (k : HidKeyboard H L) (addr : Nat) : HidKeyboard H L :=
  { k with hid := ops.endpoint_in_complete k.hid addr }

/-! ## Helper lemmas -/

theorem ledBit_eq_testBit (l i : Nat) : ledBit l i = l.testBit i := by
  unfold ledBit
  rw [Nat.shiftLeft_eq, one_mul, Nat.and_two_pow]
  cases h : l.testBit i <;> simp [h]

theorem ledBit_mod32 (l i : Nat) (h : i < 5) : ledBit (l % 32) i = ledBit l i := by
  rw [ledBit_eq_testBit, ledBit_eq_testBit]
  have h32 : (32 : Nat) = 2 ^ 5 := by norm_num
  rw [h32, Nat.testBit_mod_two_pow]
  simp [h]

/-! ## Claim theorems -/

/-- Claim C1: for every `KeyboardReport` value (well-formed: six keycodes),
the serialized input-direction report is exactly 8 bytes — modifier,
reserved, then the 6 keycodes in that order — regardless of field contents,
and the `leds` field never contributes to the bytes pushed to the host
(changing it leaves the serialization unchanged); the source constant
`KEYBOARD_REPORT_IN_SIZE` equals 8. -/
theorem keyboard_report_serialized_size (r : KeyboardReport)
    (h : r.keycodes.length = 6) :
    r.inputBytes.length = 8 ∧
    r.inputBytes = r.modifier :: r.reserved :: r.keycodes ∧
    (∀ l, (KeyboardReport.mk r.modifier r.reserved l r.keycodes).inputBytes =
      r.inputBytes) ∧
    KEYBOARD_REPORT_IN_SIZE = 8 := by
  refine ⟨?_, rfl, fun l => rfl, rfl⟩
  simp [KeyboardReport.inputBytes, h]

/-- Witness for C1 at a concrete report. -/
theorem keyboard_report_serialized_size_witness :
    (KeyboardReport.mk 2 0 31 [4, 5, 6, 0, 0, 0]).inputBytes.length = 8 ∧
    (KeyboardReport.mk 2 0 31 [4, 5, 6, 0, 0, 0]).inputBytes =
      [2, 0, 4, 5, 6, 0, 0, 0] :=
  ⟨(keyboard_report_serialized_size (KeyboardReport.mk 2 0 31 [4, 5, 6, 0, 0, 0])
      rfl).1, by decide⟩

/-- Claim C2: in `control_out`, if the raw-report pull succeeds and the
pulled report has type `Output`, report ID 0 and declared length 1, then for
every value of the pulled byte all five `Leds` methods are invoked, with
bits 0-4 in ascending order mapped to num lock, caps lock, scroll lock,
compose, kana (each called with the bit's boolean value, unconditionally —
no edge detection), and bits 5-7 of the byte have no effect on any call
(the trace for `b` equals the trace for `b % 32`). -/
theorem control_out_led_decode (info : ReportInfo) (b : Nat)
    (ht : info.report_type = ReportType.Output) (hi : info.report_id = 0)
    (hl : info.len = 1) :
    control_out (Except.ok (info, b)) =
      [KbdEvent.hidControlOut,
       KbdEvent.ledNumLock (ledBit b 0),
       KbdEvent.ledCapsLock (ledBit b 1),
       KbdEvent.ledScrollLock (ledBit b 2),
       KbdEvent.ledCompose (ledBit b 3),
       KbdEvent.ledKana (ledBit b 4)] ∧
    control_out (Except.ok (info, b % 32)) = control_out (Except.ok (info, b)) := by
  constructor
  · simp [control_out, ht, hi, hl]
  · simp [control_out, ht, hi, hl, ledBit_mod32 b 0 (by decide),
      ledBit_mod32 b 1 (by decide), ledBit_mod32 b 2 (by decide),
      ledBit_mod32 b 3 (by decide), ledBit_mod32 b 4 (by decide)]

/-- Witness for C2 at byte 0xAA (bits: 0,1,0,1,0,1,0,1 from LSB). -/
theorem control_out_led_decode_witness :
    control_out (Except.ok (ReportInfo.mk ReportType.Output 0 1, 0xaa)) =
      [KbdEvent.hidControlOut, KbdEvent.ledNumLock false,
       KbdEvent.ledCapsLock true, KbdEvent.ledScrollLock false,
       KbdEvent.ledCompose true, KbdEvent.ledKana false] := by
  have h := control_out_led_decode (ReportInfo.mk ReportType.Output 0 1) 0xaa
    rfl rfl rfl
  rw [h.1]
  decide

/-- Claim C3: in `control_out`, if the raw-report pull fails, or the pulled
report's type is not `Output`, or its report ID is not 0, or its declared
length is not 1, then zero `Leds` methods are invoked and `control_out`
completes without signalling any error (the trace is the sole delegation
event; the function is total and returns no error value). -/
theorem control_out_ignores_irrelevant (pull : Except UsbError (ReportInfo × Nat))
    (h : ∀ info b, pull = Except.ok (info, b) →
      ¬(info.report_type = ReportType.Output ∧ info.report_id = 0 ∧
        info.len = 1)) :
    control_out pull = [KbdEvent.hidControlOut] := by
  match pull with
  | Except.error e => rfl
  | Except.ok (info, b) =>
    have hc := h info b rfl
    simp [control_out, hc]

/-- Witness for C3: a failed pull, and a pulled report with report ID 1. -/
theorem control_out_ignores_irrelevant_witness :
    control_out (Except.error UsbError.WouldBlock) = [KbdEvent.hidControlOut] ∧
    control_out (Except.ok (ReportInfo.mk ReportType.Output 1 1, 3)) =
      [KbdEvent.hidControlOut] :=
  ⟨control_out_ignores_irrelevant (Except.error UsbError.WouldBlock)
      (fun _ _ hok => nomatch hok),
   control_out_ignores_irrelevant (Except.ok (ReportInfo.mk ReportType.Output 1 1, 3))
      (fun info b hok => by
        injection hok with hpair
        injection hpair with h1 h2
        subst h1
        subst h2
        decide)⟩

/-- Claim C4: `push_keyboard_report` returns success exactly when the
underlying submission succeeds reporting 8 bytes written
(`KEYBOARD_REPORT_IN_SIZE = 8`); a successful submission reporting any
other byte count yields `UsbError.BufferOverflow`. -/
theorem push_keyboard_report_success_iff (res : Except UsbError Nat) :
    KEYBOARD_REPORT_IN_SIZE = 8 ∧
    (push_keyboard_report res = Except.ok () ↔ res = Except.ok 8) ∧
    (∀ n, n ≠ 8 →
      push_keyboard_report (Except.ok n) = Except.error UsbError.BufferOverflow) := by
  refine ⟨rfl, ?_, ?_⟩
  · match res with
    | Except.error e => simp [push_keyboard_report, push_keyboard_report_full]
    | Except.ok n =>
      by_cases h : n = 8
      · subst h
        simp [push_keyboard_report, push_keyboard_report_full, KEYBOARD_REPORT_IN_SIZE]
      · simp [push_keyboard_report, push_keyboard_report_full, KEYBOARD_REPORT_IN_SIZE, h]
  · intro n hn
    simp [push_keyboard_report, push_keyboard_report_full, KEYBOARD_REPORT_IN_SIZE, hn]

/-- Witness for C4: a submission reporting 7 bytes written. -/
theorem push_keyboard_report_success_iff_witness :
    push_keyboard_report (Except.ok 7) = Except.error UsbError.BufferOverflow :=
  (push_keyboard_report_success_iff (Except.ok 7)).2.2 7 (by decide)

/-- Claim C5: every error of the underlying submission is returned by
`push_keyboard_report` unchanged — no retry, no remapping. -/
theorem push_keyboard_report_propagates_errors (e : UsbError) :
    push_keyboard_report (Except.error e) = Except.error e := rfl

/-- Claim C10: whatever the submission outcome — in particular a success
reporting a byte count other than 8, including counts greater than 8 — the
trace of `push_keyboard_report` holds exactly the one already-completed
`push_input` submission (never undone, re-submitted or rolled back; the
buffer-overflow error is reported strictly after it), and contains no `Leds`
call in any path. -/
theorem push_overflow_after_submission (res : Except UsbError Nat) :
    (push_keyboard_report_full res).1 = [KbdEvent.hidPushInput] ∧
    (push_keyboard_report_full res).1.filter isLedEvent = [] ∧
    (∀ n, res = Except.ok n → n ≠ 8 →
      (push_keyboard_report_full res).2 = Except.error UsbError.BufferOverflow) := by
  refine ⟨rfl, rfl, ?_⟩
  intro n hres hn
  subst hres
  simp [push_keyboard_report_full, KEYBOARD_REPORT_IN_SIZE, hn]

/-- Witness for C10 at a count greater than 8. -/
theorem push_overflow_after_submission_witness :
    (push_keyboard_report_full (Except.ok 16)).1 = [KbdEvent.hidPushInput] ∧
    (push_keyboard_report_full (Except.ok 16)).2 =
      Except.error UsbError.BufferOverflow :=
  ⟨(push_overflow_after_submission (Except.ok 16)).1,
   (push_overflow_after_submission (Except.ok 16)).2.2 16 rfl (by decide)⟩

/-- Claim C8: on every `control_out` invocation the delegation to the
wrapped HID class happens first, exactly once, and unconditionally: whatever
the pull outcome, the trace starts with the delegation event and that event
occurs nowhere else in it. -/
theorem control_out_delegates_first (pull : Except UsbError (ReportInfo × Nat)) :
    ∃ rest, control_out pull = KbdEvent.hidControlOut :: rest ∧
      KbdEvent.hidControlOut ∉ rest := by
  unfold control_out
  refine ⟨_, rfl, ?_⟩
  match pull with
  | Except.error e => simp
  | Except.ok (info, b) =>
    by_cases hc : info.report_type = ReportType.Output ∧ info.report_id = 0 ∧
      info.len = 1
    · simp [hc]
    · simp [hc]

/-- Claim C6: the generated HID report descriptor defines one application
collection (Generic Desktop / Keyboard usage) whose fields, in order, are:
an 8-bit data/variable/absolute input field for modifier usages 0xE0-0xE7 on
the Keyboard page; an 8-bit constant/variable/absolute input field
(reserved); a 5-bit data/variable/absolute output field for LED usages
0x01-0x05; and a 6-element array of 8-bit data/array/absolute input
keycodes with usage range 0x00-0xFF (not the stricter 0xDD ceiling). -/
theorem keyboard_descriptor_layout :
    keyboardReportDesc.length = 1 ∧
    (keyboardReportDesc.getD 0 default).collectionKind = APPLICATION ∧
    (keyboardReportDesc.getD 0 default).usage_page = GENERIC_DESKTOP ∧
    (keyboardReportDesc.getD 0 default).usage = KEYBOARD_USAGE ∧
    (keyboardReportDesc.getD 0 default).fields.length = 4 ∧
    (let f0 := (keyboardReportDesc.getD 0 default).fields.getD 0 default
     f0.direction = HidDirection.input ∧ f0.dataKind = HidFieldData.data ∧
     f0.modeKind = HidFieldMode.variableMode ∧ f0.relKind = HidFieldRel.absolute ∧
     f0.usage_page = some KEYBOARD_PAGE ∧ f0.usage_min = 0xe0 ∧
     f0.usage_max = 0xe7 ∧ f0.report_size * f0.report_count = 8) ∧
    (let f1 := (keyboardReportDesc.getD 0 default).fields.getD 1 default
     f1.direction = HidDirection.input ∧ f1.dataKind = HidFieldData.const ∧
     f1.modeKind = HidFieldMode.variableMode ∧ f1.relKind = HidFieldRel.absolute ∧
     f1.report_size * f1.report_count = 8) ∧
    (let f2 := (keyboardReportDesc.getD 0 default).fields.getD 2 default
     f2.direction = HidDirection.output ∧ f2.dataKind = HidFieldData.data ∧
     f2.modeKind = HidFieldMode.variableMode ∧ f2.relKind = HidFieldRel.absolute ∧
     f2.usage_page = some LEDS_PAGE ∧ f2.usage_min = 0x01 ∧
     f2.usage_max = 0x05 ∧ f2.report_size * f2.report_count = 5) ∧
    (let f3 := (keyboardReportDesc.getD 0 default).fields.getD 3 default
     f3.direction = HidDirection.input ∧ f3.dataKind = HidFieldData.data ∧
     f3.modeKind = HidFieldMode.arrayMode ∧ f3.relKind = HidFieldRel.absolute ∧
     f3.usage_page = some KEYBOARD_PAGE ∧ f3.usage_min = 0x00 ∧
     f3.usage_max = 0xff ∧ f3.report_count = 6 ∧ f3.report_size = 8) := by
  decide

/-- Claim C7: every `UsbClass` operation of `HidKeyboard` except
`control_out` forwards the call to the wrapped HID class instance with the
same inputs and returns its result unchanged, adding no other behaviour (in
particular the stored `Leds` capability is untouched by the state-mutating
operations). -/
theorem usb_class_delegation {H L W BW CI : Type} (ops : UsbClassOps H W BW CI)
    (k : HidKeyboard H L) (w : W) (bw : BW) (index lang_id : Nat) (xfer : CI)
    (addr : Nat) :
    HidKeyboard.get_configuration_descriptors ops k w =
      ops.get_configuration_descriptors k.hid w ∧
    HidKeyboard.get_bos_descriptors ops k bw = ops.get_bos_descriptors k.hid bw ∧
    HidKeyboard.get_string ops k index lang_id = ops.get_string k.hid index lang_id ∧
    (HidKeyboard.reset ops k).hid = ops.reset k.hid ∧
    (HidKeyboard.reset ops k).leds = k.leds ∧
    (HidKeyboard.poll ops k).hid = ops.poll k.hid ∧
    (HidKeyboard.poll ops k).leds = k.leds ∧
    (HidKeyboard.control_in ops k xfer).hid = ops.control_in k.hid xfer ∧
    (HidKeyboard.control_in ops k xfer).leds = k.leds ∧
    (HidKeyboard.endpoint_setup ops k addr).hid = ops.endpoint_setup k.hid addr ∧
    (HidKeyboard.endpoint_setup ops k addr).leds = k.leds ∧
    (HidKeyboard.endpoint_out ops k addr).hid = ops.endpoint_out k.hid addr ∧
    (HidKeyboard.endpoint_out ops k addr).leds = k.leds ∧
    (HidKeyboard.endpoint_in_complete ops k addr).hid =
      ops.endpoint_in_complete k.hid addr ∧
    (HidKeyboard.endpoint_in_complete ops k addr).leds = k.leds :=
  ⟨rfl, rfl, rfl, rfl, rfl, rfl, rfl, rfl, rfl, rfl, rfl, rfl, rfl, rfl, rfl⟩

/-- Claim C9: `HidKeyboard::new(bus, leds)` always constructs a keyboard
device (it is a total function — no error path), configuring the wrapped
HID class with subclass Boot, protocol Keyboard, protocol-mode force-boot,
locale not-supported, poll interval 10 and the `KeyboardReport` descriptor,
and storing the caller-supplied `Leds` capability unmodified. -/
theorem hid_keyboard_new_config {Bus L : Type} (bus : Bus) (leds : L) :
    (HidKeyboard.new bus leds).hid.settings.subclass = HidSubClass.Boot ∧
    (HidKeyboard.new bus leds).hid.settings.protocol = HidProtocol.Keyboard ∧
    (HidKeyboard.new bus leds).hid.settings.config = ProtocolModeConfig.ForceBoot ∧
    (HidKeyboard.new bus leds).hid.settings.locale = HidCountryCode.NotSupported ∧
    (HidKeyboard.new bus leds).hid.poll_interval = 10 ∧
    (HidKeyboard.new bus leds).hid.report_descriptor = keyboardReportDesc ∧
    (HidKeyboard.new bus leds).hid.bus = bus ∧
    (HidKeyboard.new bus leds).leds = leds :=
  ⟨rfl, rfl, rfl, rfl, rfl, rfl, rfl, rfl⟩
